import Mathlib

/-!
Verification development for the seo-auditor-api repository.

The repository is a small FastAPI service (src/main.py, src/helpers.py,
src/helpers_schema.py).  This file gives a shallow embedding of its pure
domain logic:

* `normalize`        — main.py lines 17-19
* `short_domain`     — main.py lines 9-14 (with a model of
                       `urllib.parse.urlparse(url).hostname`)
* `parse_robots`     — helpers.py lines 15-28
* `call_psi`         — helpers.py lines 34-60 (network modelled as an oracle
                       `Strategy → HttpOutcome`)
* `buildReport` / `health_score` / `analyze_seo` / `analyze_seo_url`
                     — main.py lines 44-136; the BeautifulSoup document is
                       modelled as an HTML forest (`NodeF`), and the string
                       parser `BeautifulSoup(html, "html.parser")` is a
                       universally quantified parameter where it matters.

Python string primitives (`str.lower`, `str.strip`, `str.startswith`,
`str.splitlines`, slicing, `in`) are re-implemented over `List Char` by
structural recursion so that every definition evaluates inside the kernel.
The models are exact for ASCII data; Unicode-only behaviours of Python
(locale-free Unicode case folding, Unicode whitespace in `str.strip`) are
out of scope and noted where relevant.
-/

namespace SeoAuditor

/-! ### Python string primitives, modelled over `List Char` -/

/-- Whitespace characters stripped by Python `str.strip()` (ASCII part:
space, tab, newline, carriage return, vertical tab, form feed). -/
def isPySpace (c : Char) : Bool :=
  c == ' ' || c == '\t' || c == '\n' || c == '\r' || c == '\x0b' || c == '\x0c'

/-- Drop leading and trailing whitespace: Python `str.strip()`. -/
def trimChars (cs : List Char) : List Char :=
  ((cs.dropWhile isPySpace).reverse.dropWhile isPySpace).reverse

/-- Python `str.strip()`. -/
def pyStrip (s : String) : String :=
  String.mk (trimChars s.data)

/-- Python `str.lower()` (ASCII case folding). -/
def lowerStr (s : String) : String :=
  String.mk (s.data.map Char.toLower)

/-- Python `str.startswith(pre)`. -/
def pyStartsWith (s pre : String) : Bool :=
  pre.data.isPrefixOf s.data

/-- Helper for `containsSub`: is `n` an infix of the second list? -/
def listInfix (n : List Char) : List Char → Bool
  | [] => n.isEmpty
  | c :: rest => n.isPrefixOf (c :: rest) || listInfix n rest

/-- Python `needle in hay` on strings (substring containment; the empty
needle is contained in every string). -/
def containsSub (needle hay : String) : Bool :=
  listInfix needle.data hay.data

/-- Python `sep.join(parts)`. -/
def joinWith (sep : String) : List String → String
  | [] => ""
  | [s] => s
  | s :: rest => s ++ sep ++ joinWith sep rest

/-- Python `str.split(sep)` for a one-character separator: `""` splits to
`[""]`, separators at the ends produce empty fields. -/
def splitOnChar (sep : Char) : List Char → List (List Char)
  | [] => [[]]
  | c :: rest =>
    match splitOnChar sep rest with
    | [] => if c == sep then [[], []] else [[c]]
    | g :: gs => if c == sep then [] :: g :: gs else (c :: g) :: gs

/-- Character class of Python's regex `\w` (ASCII part): letters, digits,
underscore. -/
def isWordChar (c : Char) : Bool :=
  c.isAlphanum || c == '_'

/-- Counts maximal runs of word characters: `len(re.findall(r"\w+", s))`
(main.py line 72).  The boolean argument records whether the previous
character belonged to a run. -/
def wordCountAux : List Char → Bool → Nat
  | [], _ => 0
  | c :: rest, inWord =>
    if isWordChar c then (if inWord then 0 else 1) + wordCountAux rest true
    else wordCountAux rest false

/-- Number of `\w+` word tokens in a string. -/
def wordCount (s : String) : Nat :=
  wordCountAux s.data false

/-- Line terminators recognised by Python `str.splitlines()`. -/
def isLineBreak (c : Char) : Bool :=
  c == '\n' || c == '\r' || c == '\x0b' || c == '\x0c' ||
  c == '\x1c' || c == '\x1d' || c == '\x1e' || c == '\x85' ||
  c == '\u2028' || c == '\u2029'

/-- Worker for `splitlines`; `acc` holds the current line reversed. -/
def splitlinesAux : List Char → List Char → List String
  | [], acc => if acc.isEmpty then [] else [String.mk acc.reverse]
  | '\r' :: '\n' :: rest, acc => String.mk acc.reverse :: splitlinesAux rest []
  | c :: rest, acc =>
    if isLineBreak c then String.mk acc.reverse :: splitlinesAux rest []
    else splitlinesAux rest (c :: acc)

/-- Python `str.splitlines()`: `""` gives `[]`, a trailing terminator does
not produce a trailing empty line, `\r\n` counts as one terminator. -/
def splitlines (s : String) : List String :=
  splitlinesAux s.data []

/-! ### main.py lines 17-19 — `normalize` -/

/-- Characters kept by the regex class `[a-z0-9]`. -/
def isLowerAlnum (c : Char) : Bool :=
  ('a' ≤ c && c ≤ 'z') || ('0' ≤ c && c ≤ '9')

/-- main.py lines 17-19: `re.sub(r"[^a-z0-9]", "", text.lower())` —
lower-case, then drop every character outside `[a-z0-9]`. -/
def normalize (text : String) : String :=
  String.mk ((text.data.map Char.toLower).filter isLowerAlnum)

/-! ### main.py lines 9-14 — `short_domain`, with a model of
`urllib.parse.urlparse(url).hostname` -/

/-- Characters allowed in a URL scheme after the first letter
(CPython `urllib.parse.scheme_chars`). -/
def isSchemeChar (c : Char) : Bool :=
  c.isAlpha || c.isDigit || c == '+' || c == '-' || c == '.'

/-- CPython `urlsplit` removes every tab, carriage return and newline from
the URL and strips leading C0-control-or-space characters. -/
def sanitizeUrl (cs : List Char) : List Char :=
  (cs.filter (fun c => !(c == '\t' || c == '\r' || c == '\n'))).dropWhile
    (fun c => c.toNat ≤ 32)

/-- Scheme detection of CPython `urlsplit`: if the first `:` is preceded by
a letter followed by scheme characters, everything up to and including it is
removed. -/
def stripScheme (cs : List Char) : List Char :=
  match cs.findIdx? (· == ':') with
  | none => cs
  | some i =>
    if 0 < i then
      let pre := cs.take i
      if (match pre with | c :: _ => c.isAlpha | [] => false) && pre.all isSchemeChar then
        cs.drop (i + 1)
      else cs
    else cs

/-- CPython `_hostinfo`: the host is the part of the netloc after the last
`@` and before the first `:`, lower-cased (IPv6 bracket syntax is not
modelled). -/
def hostOfNetloc (netloc : List Char) : List Char :=
  let afterAt := (splitOnChar '@' netloc).getLastD netloc
  ((splitOnChar ':' afterAt).headD []).map Char.toLower

/-- Model of `urllib.parse.urlparse(url).hostname or ""` (main.py line 11):
strip the scheme; if the remainder starts with `//` the netloc extends to
the next `/`, `?` or `#` and the host is extracted from it; otherwise there
is no host and the result is the empty string. -/
def urlHostname (url : String) : String :=
  let rest := stripScheme (sanitizeUrl url.data)
  match rest with
  | '/' :: '/' :: tail =>
    String.mk (hostOfNetloc (tail.takeWhile (fun c => !(c == '/' || c == '?' || c == '#'))))
  | _ => ""

/-- main.py line 12: `re.sub(r"^(www|m|web)\.", "", host)` — the anchored
alternation removes at most one of the prefixes `www.`, `m.`, `web.`. -/
def stripCommonSub (host : String) : String :=
  if pyStartsWith host "www." then String.mk (host.data.drop 4)
  else if pyStartsWith host "m." then String.mk (host.data.drop 2)
  else if pyStartsWith host "web." then String.mk (host.data.drop 4)
  else host

/-- main.py lines 9-14: hostname, strip a common subdomain marker, keep the
last two dot-separated labels (`".".join(parts[-2:])`), or the whole
remaining host when it has fewer than two labels. -/
def short_domain (url : String) : String :=
  let host := stripCommonSub (urlHostname url)
  let parts := splitOnChar '.' host.data
  if parts.length ≥ 2 then
    joinWith "." ((parts.drop (parts.length - 2)).map String.mk)
  else host

/-! ### helpers.py lines 15-28 — `parse_robots` -/

/-- Result of the robots matcher: helpers.py line 28 returns
`{"blocked": blocked, "rules": rules}`. -/
structure RobotsResult where
  blocked : Bool
  rules : List String
  deriving DecidableEq

/-- helpers.py line 22: `re.match(r"(?i)disallow:\s*(.*)", line)` followed by
`m.group(1).strip()` (line 24).  The anchored case-insensitive literal is
the first nine characters; `\s*(.*)` plus `.strip()` amounts to stripping
the remainder. -/
def robotsLine (line : String) : Option String :=
  if String.mk ((line.data.take 9).map Char.toLower) == "disallow:" then
    some (String.mk (trimChars (line.data.drop 9)))
  else none

/-- helpers.py line 25: an empty rule is recorded as `"/"`. -/
def normRule (r : String) : String :=
  if r == "" then "/" else r

/-- One iteration of the loop of helpers.py lines 21-27 over the state
`(blocked, rules)`. -/
def robotsStep (target : String) (st : Bool × List String) (line : String) :
    Bool × List String :=
  match robotsLine line with
  | none => st
  | some rule => (st.1 || pyStartsWith target rule, st.2 ++ [normRule rule])

/-- helpers.py lines 15-28: scan `robots_text` line by line, collect the
(normalised) Disallow values in order, and set `blocked` as soon as the
target path starts with a raw Disallow value. -/
def parse_robots (robots_text target_path : String) : RobotsResult :=
  let st := (splitlines robots_text).foldl (robotsStep target_path) (false, [])
  ⟨st.1, st.2⟩

/-- The raw (un-normalised) Disallow values of a robots.txt text, in order:
the values matched by line 22 before the `rule or "/"` adjustment. -/
def disallowValues (txt : String) : List String :=
  (splitlines txt).filterMap robotsLine

/-! ### HTML document model

A parsed document (the value `BeautifulSoup(html, "html.parser")` of
main.py line 47) is modelled as a forest of nodes.  `NodeF` encodes a
sibling list directly, so every traversal is structurally recursive:
`element tag attrs children rest` is an element followed by its later
siblings `rest`, and `text s rest` is a text node followed by `rest`. -/

/-- HTML forest: a sequence of element and text nodes. -/
inductive NodeF where
  | nil : NodeF
  | text (s : String) (rest : NodeF) : NodeF
  | element (tag : String) (attrs : List (String × String)) (children : NodeF)
      (rest : NodeF) : NodeF

/-- An element as returned by BeautifulSoup searches: its tag, its
attributes and its children. -/
structure Elem where
  tag : String
  attrs : List (String × String)
  children : NodeF

/-- Attribute lookup, `tag.get(key)` / `tag[key]`: first binding wins (the
lenient HTML parser keeps the first occurrence of a duplicated attribute). -/
def getAttr (attrs : List (String × String)) (key : String) : Option String :=
  match attrs.find? (fun kv => kv.1 == key) with
  | some kv => some kv.2
  | none => none

/-- `soup.find_all(...)` with a predicate on tag name and attributes:
document-order (pre-order) traversal of all elements. -/
def findAll (p : String → List (String × String) → Bool) : NodeF → List Elem
  | .nil => []
  | .text _ rest => findAll p rest
  | .element t a c rest =>
    (if p t a then [⟨t, a, c⟩] else []) ++ findAll p c ++ findAll p rest

/-- All text-node strings of a forest in document order
(BeautifulSoup `strings`). -/
def nodeStrings : NodeF → List String
  | .nil => []
  | .text s rest => s :: nodeStrings rest
  | .element _ _ c rest => nodeStrings c ++ nodeStrings rest

/-- BeautifulSoup `get_text(" ", strip=True)`: strip every text-node
string, drop the ones that become empty, join the rest with one space. -/
def getTextStrip (f : NodeF) : String :=
  joinWith " " (((nodeStrings f).map pyStrip).filter (fun s => s != ""))

/-- BeautifulSoup `.string` of an element with the given children forest:
the contained string when there is exactly one child and it is a text node,
recursing through a single element child; `None` otherwise. -/
def containedString : NodeF → Option String
  | .text s .nil => some s
  | .element _ _ c .nil => containedString c
  | _ => none

/-! ### main.py lines 44-110 — `analyze_seo` feature extraction -/

/-- main.py line 51: `soup.title.string.strip() if soup.title and
soup.title.string else ""` — `soup.title` is the first `<title>` element in
document order. -/
def titleOf (doc : NodeF) : String :=
  match (findAll (fun t _ => t == "title") doc).head? with
  | some e =>
    match containedString e.children with
    | some s => pyStrip s
    | none => ""
  | none => ""

/-- main.py lines 52-53: first `<meta name="description">`, then
`meta_tag.get("content", "").strip()`, else `""`. -/
def metaDescOf (doc : NodeF) : String :=
  match (findAll (fun t a => t == "meta" && getAttr a "name" == some "description") doc).head? with
  | some e => pyStrip ((getAttr e.attrs "content").getD "")
  | none => ""

/-- main.py line 54: `[h.get_text(" ", strip=True) for h in
soup.find_all("h1")]`. -/
def h1Texts (doc : NodeF) : List String :=
  (findAll (fun t _ => t == "h1") doc).map (fun e => getTextStrip e.children)

/-- main.py line 55: `soup.get_text(" ", strip=True)`. -/
def bodyText (doc : NodeF) : String :=
  getTextStrip doc

/-- main.py line 77: `soup.find_all("a", href=True)` — every anchor element
carrying an `href` attribute (any value, including the empty string). -/
def anchorElems (doc : NodeF) : List Elem :=
  findAll (fun t a => t == "a" && (getAttr a "href").isSome) doc

/-- main.py line 90: `soup.find_all("img")`. -/
def imgElems (doc : NodeF) : List Elem :=
  findAll (fun t _ => t == "img") doc

/-- `a["href"]` for an anchor produced by `anchorElems` (the attribute is
present by construction; the default is never used). -/
def hrefOf (e : Elem) : String :=
  (getAttr e.attrs "href").getD ""

/-- Python truthiness of `img.get("alt")`: `None` and `""` are falsy. -/
def attrTruthy (v : Option String) : Bool :=
  match v with
  | none => false
  | some s => s != ""

/-- main.py line 78: an anchor is counted internal when
`short_domain(a["href"]) == short_domain(body.url)`. -/
def isInternal (url : String) (e : Elem) : Bool :=
  short_domain (hrefOf e) == short_domain url

/-- main.py lines 85-86: an anchor is counted external when
`short_domain(a["href"]) not in ["", short_domain(body.url)]`. -/
def isExternal (url : String) (e : Elem) : Bool :=
  !(short_domain (hrefOf e) == "" || short_domain (hrefOf e) == short_domain url)

/-- The `report` dictionary of main.py lines 57-94, flattened into named
fields (without the derived `health_score`). -/
structure Report where
  title_present : Bool
  title_length : Nat
  title_includes_kw : Bool
  meta_present : Bool
  meta_length : Nat
  meta_includes_kw : Bool
  h1_count : Nat
  h1_includes_kw : Bool
  word_count : Nat
  kw_in_first_150 : Bool
  internal_links : Nat
  external_links : Nat
  image_total : Nat
  image_missing_alt : Nat
  url_contains_kw : Bool
  deriving DecidableEq

/-- main.py lines 46-94: extraction of the `report` fields from the parsed
document `doc`, the page URL and the primary keyword
(`pk = body.primary_keyword.lower()`, line 48). -/
def buildReport (doc : NodeF) (url primary_keyword : String) : Report :=
  let pk := lowerStr primary_keyword
  let title := titleOf doc
  let metaDesc := metaDescOf doc
  let h1s := h1Texts doc
  let text := bodyText doc
  { title_present := title != ""
    title_length := title.length
    title_includes_kw := containsSub pk (lowerStr title)
    meta_present := metaDesc != ""
    meta_length := metaDesc.length
    meta_includes_kw := containsSub pk (lowerStr metaDesc)
    h1_count := h1s.length
    h1_includes_kw := containsSub pk (lowerStr (h1s.headD ""))
    word_count := wordCount text
    kw_in_first_150 := containsSub pk (lowerStr (String.mk (text.data.take 150)))
    internal_links := (anchorElems doc).countP (isInternal url)
    external_links := (anchorElems doc).countP (isExternal url)
    image_total := (imgElems doc).length
    image_missing_alt := (imgElems doc).countP (fun e => !attrTruthy (getAttr e.attrs "alt"))
    url_contains_kw := containsSub (normalize pk) (normalize url) }

/-! ### main.py lines 97-108 — health score -/

/-- main.py lines 97-106: the fixed checklist of eight boolean checks. -/
def pass_flags (r : Report) : List Bool :=
  [r.title_present && r.title_includes_kw,
   r.meta_present && r.meta_includes_kw,
   (r.h1_count == 1) && r.h1_includes_kw,
   r.kw_in_first_150,
   decide (300 ≤ r.word_count),
   decide (3 ≤ r.internal_links),
   r.image_missing_alt == 0,
   r.url_contains_kw]

/-- Round-half-to-even of the rational `num / den` (`den > 0`).  Python's
`round` applied to the float `sum(pass_flags) / 8 * 100` is exactly this:
the quotients `k / 8 * 100` for `k = 0..8` are all exactly representable
as binary floats, and `round` on floats breaks ties to even. -/
def roundHalfEven (num den : Nat) : Nat :=
  let q := num / den
  let r := num % den
  if 2 * r < den then q
  else if den < 2 * r then q + 1
  else if q % 2 == 0 then q else q + 1

/-- main.py lines 107-108:
`round(sum(pass_flags) / total_checks * 100)` with `total_checks = 8`. -/
def health_score (r : Report) : Nat :=
  roundHalfEven (100 * (pass_flags r).countP (fun b => b)) 8

/-- The full response of `/analyze-seo`: the report plus `health_score`
(main.py lines 108-110). -/
structure FullReport where
  features : Report
  health_score : Nat
  deriving DecidableEq

/-- main.py lines 44-110, abstracted over the HTML parser `parse`
(`BeautifulSoup(html, "html.parser")`): build the report from the parsed
body and attach the health score. -/
def analyze_seo (parse : String → NodeF) (html url primary_keyword : String) :
    FullReport :=
  let r := buildReport (parse html) url primary_keyword
  ⟨r, health_score r⟩

/-- main.py lines 126-136: `/analyze-seo-url` fetches the page
(`requests.get(body.url, ...).text`, modelled by the oracle `fetch`; `none`
is a fetch that raises) and then calls `analyze_seo` on the fetched HTML
with the same URL and keyword. -/
def analyze_seo_url (parse : String → NodeF) (fetch : String → Option String)
    (url primary_keyword : String) : Option FullReport :=
  match fetch url with
  | some html => some (analyze_seo parse html url primary_keyword)
  | none => none

/-! ### helpers.py lines 30-60 — Core Web Vitals client -/

/-- PSI strategy, tried in the order mobile, desktop (helpers.py line 39). -/
inductive Strategy where
  | mobile
  | desktop
  deriving DecidableEq

/-- The metrics extracted from a successful PSI response
(helpers.py lines 51-57). -/
structure Metrics where
  lcp_ms : Int
  cls : String
  inp_ms : Option Int
  score : Int
  deriving DecidableEq

/-- Outcome of one `httpx.get(PSI_ENDPOINT, ...)` call (helpers.py
line 46): an HTTP reply with a status code and (for status 200) the data
the code extracts, or a network error / timeout, which in Python raises an
exception. -/
inductive HttpOutcome where
  | reply (status : Nat) (metrics : Metrics)
  | netError (msg : String)
  deriving DecidableEq

/-- Observable result of `call_psi`: a successful strategy's data, the
aggregated `HTTPException(400)` of helpers.py line 60, or an exception that
propagates out of the function uncaught (there is no try/except in
`call_psi`, so a raised network error is not converted to a 400). -/
inductive PsiResult where
  | ok (strategy : Strategy) (metrics : Metrics)
  | httpError400 (detail : String)
  | unhandledError (msg : String)
  deriving DecidableEq

/-- Discriminator for the aggregated 400 outcome. -/
def PsiResult.isHttp400 : PsiResult → Bool
  | .httpError400 _ => true
  | _ => false

/-- helpers.py lines 34-60 with the loop over `("mobile", "desktop")`
unrolled: a response with status 200 returns that strategy's data at once;
any other status falls through to the next strategy; after both strategies
fail with non-200 statuses the aggregated 400 is raised; a raised network
error propagates immediately. -/
def call_psi (respond : Strategy → HttpOutcome) : PsiResult :=
  match respond .mobile with
  | .netError msg => .unhandledError msg
  | .reply status metrics =>
    if status == 200 then .ok .mobile metrics
    else
      match respond .desktop with
      | .netError msg => .unhandledError msg
      | .reply status2 metrics2 =>
        if status2 == 200 then .ok .desktop metrics2
        else .httpError400 "PSI failed on mobile and desktop"

/-! ### Concrete fixtures used by individual claims -/

/-- The robots.txt text of the spec's worked example (§8). -/
def robotsFixture : String :=
  "User-agent: *\nDisallow: /admin\nDisallow: /private/"

/-- A document holding a single anchor with a relative href. -/
def relAnchorDoc : NodeF :=
  .element "a" [("href", "/contact")] .nil .nil

/-- A document with one absolute-href anchor and one relative-href anchor. -/
def mixedAnchorDoc : NodeF :=
  .element "a" [("href", "https://other.org/x")] .nil
    (.element "a" [("href", "/rel")] .nil .nil)

/-- A degenerate parser fixture (maps every HTML string to the empty
forest). -/
def parseFixture : String → NodeF :=
  fun _ => .nil

/-- A fetch oracle fixture that always succeeds with a fixed body. -/
def fetchFixture : String → Option String :=
  fun _ => some "<html></html>"

/-- A fixed metrics record. -/
def psiMetricsFixture : Metrics :=
  ⟨1200, "0.05", none, 90⟩

/-- A PSI oracle where both strategies answer with non-200 statuses. -/
def psiBothNon200 : Strategy → HttpOutcome :=
  fun s =>
    match s with
    | .mobile => .reply 403 psiMetricsFixture
    | .desktop => .reply 500 psiMetricsFixture

/-! ### Helper lemmas -/

/-- Every string starts with the empty string (`str.startswith("")`). -/
theorem pyStartsWith_empty (t : String) : pyStartsWith t "" = true := by
  show "".data.isPrefixOf t.data = true
  cases t.data <;> rfl

/-- `List.any` only depends on the predicate pointwise. -/
theorem any_ext {α : Type} (p q : α → Bool) (hpq : ∀ x, p x = q x)
    (l : List α) : l.any p = l.any q := by
  rw [funext hpq]

/-- Closed form of the robots loop of helpers.py lines 21-27: the folded
state is the disjunction of the raw-rule prefix tests and the ordered list
of normalised rules. -/
theorem robots_foldl (target : String) (lines : List String) :
    ∀ (b : Bool) (rs : List String),
      lines.foldl (robotsStep target) (b, rs)
        = (b || (lines.filterMap robotsLine).any (fun r => pyStartsWith target r),
           rs ++ (lines.filterMap robotsLine).map normRule) := by
  induction lines with
  | nil => intro b rs; simp
  | cons l ls ih =>
    intro b rs
    cases hl : robotsLine l with
    | none => simp [List.foldl_cons, robotsStep, hl, ih]
    | some r => simp [List.foldl_cons, robotsStep, hl, ih, Bool.or_assoc]

/-- The rules list of `parse_robots` is the ordered list of normalised
Disallow values. -/
theorem parse_robots_rules (txt target : String) :
    (parse_robots txt target).rules = (disallowValues txt).map normRule := by
  simp [parse_robots, disallowValues, robots_foldl]

/-- The blocked flag of `parse_robots` is the disjunction of the raw-value
prefix tests. -/
theorem parse_robots_blocked (txt target : String) :
    (parse_robots txt target).blocked
      = (disallowValues txt).any (fun r => pyStartsWith target r) := by
  simp [parse_robots, disallowValues, robots_foldl]

/-- Two pointwise-disjoint predicates count at most `length` in total. -/
theorem countP_pair_le_length {α : Type} (p q : α → Bool) (l : List α)
    (h : ∀ x, p x = true → q x = false) :
    l.countP p + l.countP q ≤ l.length := by
  induction l with
  | nil => simp
  | cons a t ih =>
    rw [List.countP_cons, List.countP_cons, List.length_cons]
    have key : (if p a then 1 else 0) + (if q a then 1 else 0) ≤ 1 := by
      cases hp : p a
      · cases hq : q a <;> simp
      · simp [h a hp]
    omega

/-- Filtering by a predicate implied by `p` does not change `countP p`. -/
theorem countP_filter_of_imp {α : Type} (p q : α → Bool) (l : List α)
    (h : ∀ x, p x = true → q x = true) :
    (l.filter q).countP p = l.countP p := by
  rw [List.countP_filter p q l]
  apply List.countP_congr
  intro a _
  constructor
  · intro hand
    exact ((Bool.and_eq_true (p a) (q a)).mp hand).1
  · intro hp
    rw [hp, h a hp]
    rfl

/-- An anchor counted internal is never counted external
(main.py lines 74-88): the external filter excludes the page's own
domain. -/
theorem isExternal_eq_false_of_isInternal (url : String) (e : Elem)
    (h : isInternal url e = true) : isExternal url e = false := by
  simp only [isInternal] at h
  simp only [isExternal, h, Bool.or_true, Bool.not_true]

/-- Scores of the eight checklist counts stay within 100. -/
theorem roundHalfEven_checklist_le (k : Nat) (hk : k ≤ 8) :
    roundHalfEven (100 * k) 8 ≤ 100 := by
  have hball : ∀ j, j < 9 → roundHalfEven (100 * j) 8 ≤ 100 := by decide
  exact hball k (by omega)

/-! ### Claims -/

/-- C1: for every extracted feature record, the health score is the
round-half-to-even of `100 * k / 8` where `k` counts the satisfied
predicates of the fixed eight-item checklist (title present and includes
keyword; meta present and includes keyword; exactly one h1 including the
keyword; keyword in the first 150 characters; word count at least 300; at
least 3 internal links; no image missing alt text; URL contains the
normalized keyword); the score never exceeds 100, and k = 0, 1, 4, 8 give
0, 12, 50, 100. -/
theorem health_score_checklist (r : Report) :
    pass_flags r
        = [r.title_present && r.title_includes_kw,
           r.meta_present && r.meta_includes_kw,
           (r.h1_count == 1) && r.h1_includes_kw,
           r.kw_in_first_150,
           decide (300 ≤ r.word_count),
           decide (3 ≤ r.internal_links),
           r.image_missing_alt == 0,
           r.url_contains_kw]
    ∧ health_score r = roundHalfEven (100 * (pass_flags r).countP (fun b => b)) 8
    ∧ health_score r ≤ 100
    ∧ roundHalfEven (100 * 0) 8 = 0 ∧ roundHalfEven (100 * 1) 8 = 12
    ∧ roundHalfEven (100 * 4) 8 = 50 ∧ roundHalfEven (100 * 8) 8 = 100 := by
  refine ⟨rfl, rfl, ?_, by decide, by decide, by decide, by decide⟩
  have h1 : (pass_flags r).countP (fun b => b) ≤ (pass_flags r).length :=
    List.countP_le_length (fun b => b)
  have h2 : (pass_flags r).length = 8 := rfl
  exact roundHalfEven_checklist_le _ (by omega)

/-- C2: for every robots.txt text and target path starting with `/`,
`blocked` is true exactly when the target path starts with one of the
collected rules, and on the spec's example text the collected rules are
`["/admin", "/private/"]` with `/admin/settings` blocked and `/public`
not blocked. -/
theorem robots_blocked_iff_rules (txt target : String)
    (h : pyStartsWith target "/" = true) :
    ((parse_robots txt target).blocked
        = (parse_robots txt target).rules.any (fun r => pyStartsWith target r))
    ∧ parse_robots robotsFixture "/admin/settings" = ⟨true, ["/admin", "/private/"]⟩
    ∧ parse_robots robotsFixture "/public" = ⟨false, ["/admin", "/private/"]⟩ := by
  refine ⟨?_, by decide, by decide⟩
  rw [parse_robots_blocked, parse_robots_rules, List.any_map]
  apply any_ext
  intro r
  by_cases hr : r = ""
  · subst hr
    show pyStartsWith target "" = pyStartsWith target (normRule "")
    rw [pyStartsWith_empty, show normRule "" = "/" from rfl, h]
  · simp [Function.comp, normRule, hr]

/-- C2 witness: the equivalence instantiated on the example text and the
blocked path. -/
theorem robots_blocked_iff_rules_witness :
    (parse_robots robotsFixture "/admin/settings").blocked
      = (parse_robots robotsFixture "/admin/settings").rules.any
          (fun r => pyStartsWith "/admin/settings" r) :=
  (robots_blocked_iff_rules robotsFixture "/admin/settings" (by decide)).1

/-- C3 counterexample: the claim fails when the page URL itself has no
resolvable domain.  For the page URL `/page` (whose `short_domain` is
empty) a document whose only anchor is the relative `/contact` — also of
empty domain — yields `internal_links = 1`: the unresolvable anchor is
counted as internal, because `short_domain("/contact") ==
short_domain("/page")` is `"" == ""`. -/
theorem relative_anchor_counted_internal :
    (anchorElems relAnchorDoc).map hrefOf = ["/contact"]
    ∧ short_domain "/contact" = ""
    ∧ short_domain "/page" = ""
    ∧ (buildReport relAnchorDoc "/page" "shoes").internal_links = 1 :=
  ⟨by decide, by decide, by decide, by decide⟩

/-- C3 (amended): whenever the page URL resolves to a non-empty domain,
anchors whose href resolves to the empty domain are excluded from both the
internal and the external link count — both counts are unchanged by
restricting to the anchors with a non-empty resolved domain. -/
theorem unresolved_anchor_excluded (doc : NodeF) (url kw : String)
    (h : short_domain url ≠ "") :
    (buildReport doc url kw).internal_links
        = ((anchorElems doc).filter (fun e => short_domain (hrefOf e) != "")).countP
            (isInternal url)
    ∧ (buildReport doc url kw).external_links
        = ((anchorElems doc).filter (fun e => short_domain (hrefOf e) != "")).countP
            (isExternal url) := by
  constructor
  · show (anchorElems doc).countP (isInternal url) = _
    rw [countP_filter_of_imp]
    intro e he
    simp only [isInternal] at he
    have heq : short_domain (hrefOf e) = short_domain url := eq_of_beq he
    rw [heq]
    simp [bne_iff_ne]
    exact h
  · show (anchorElems doc).countP (isExternal url) = _
    rw [countP_filter_of_imp]
    intro e he
    simp only [isExternal, Bool.not_or] at he
    exact ((Bool.and_eq_true _ _).mp he).1

/-- C3 witness: the amended statement on a mixed document and a page URL
with a resolvable domain. -/
theorem unresolved_anchor_excluded_witness :
    short_domain "http://example.com/a" ≠ ""
    ∧ ((buildReport mixedAnchorDoc "http://example.com/a" "kw").internal_links
          = ((anchorElems mixedAnchorDoc).filter
              (fun e => short_domain (hrefOf e) != "")).countP
              (isInternal "http://example.com/a")
        ∧ (buildReport mixedAnchorDoc "http://example.com/a" "kw").external_links
          = ((anchorElems mixedAnchorDoc).filter
              (fun e => short_domain (hrefOf e) != "")).countP
              (isExternal "http://example.com/a")) :=
  ⟨by decide,
   unresolved_anchor_excluded mixedAnchorDoc "http://example.com/a" "kw" (by decide)⟩

/-- C4: a robots.txt text containing a `Disallow:` line with an empty value
yields the rule `/` in the returned rules list and blocks every target path
starting with `/`. -/
theorem robots_empty_rule_blocks (txt target : String)
    (hline : ∃ l ∈ splitlines txt, robotsLine l = some "")
    (_hp : pyStartsWith target "/" = true) :
    "/" ∈ (parse_robots txt target).rules
    ∧ (parse_robots txt target).blocked = true := by
  obtain ⟨l, hl, he⟩ := hline
  have hmem : "" ∈ disallowValues txt := List.mem_filterMap.mpr ⟨l, hl, he⟩
  constructor
  · rw [parse_robots_rules]
    exact List.mem_map.mpr ⟨"", hmem, rfl⟩
  · rw [parse_robots_blocked]
    exact List.any_eq_true.mpr ⟨"", hmem, pyStartsWith_empty target⟩

/-- C4 witness: a concrete text with an empty Disallow value and the target
path `/x`. -/
theorem robots_empty_rule_blocks_witness :
    "/" ∈ (parse_robots "User-agent: *\nDisallow:" "/x").rules
    ∧ (parse_robots "User-agent: *\nDisallow:" "/x").blocked = true :=
  robots_empty_rule_blocks "User-agent: *\nDisallow:" "/x" (by decide) (by decide)

/-- C5 counterexample: when both strategy attempts fail with a network
error (a raised exception), `call_psi` does not surface the aggregated
400 error — the exception of the mobile attempt propagates uncaught
(helpers.py line 46 has no try/except around `httpx.get`). -/
theorem call_psi_net_error_counterexample :
    call_psi (fun _ => .netError "connect timeout")
        = .unhandledError "connect timeout"
    ∧ (call_psi (fun _ => .netError "connect timeout")).isHttp400 = false :=
  ⟨rfl, rfl⟩

/-- C5 (amended): if both strategies' requests complete with non-200
statuses, `call_psi` raises the single aggregated 400 error; a mobile 200
response wins immediately with `strategy = mobile`; a desktop 200 response
after a non-200 mobile response is returned with `strategy = desktop`; but
a network error or timeout raised during a request propagates as an
unhandled exception (it is not converted to the 400-equivalent error, and
the remaining strategy is not attempted). -/
theorem call_psi_behaviour (respond : Strategy → HttpOutcome) :
    (∀ s1 m1 s2 m2, respond .mobile = .reply s1 m1 → s1 ≠ 200 →
        respond .desktop = .reply s2 m2 → s2 ≠ 200 →
        call_psi respond = .httpError400 "PSI failed on mobile and desktop")
    ∧ (∀ m, respond .mobile = .reply 200 m → call_psi respond = .ok .mobile m)
    ∧ (∀ s1 m1 m2, respond .mobile = .reply s1 m1 → s1 ≠ 200 →
        respond .desktop = .reply 200 m2 → call_psi respond = .ok .desktop m2)
    ∧ (∀ msg, respond .mobile = .netError msg →
        call_psi respond = .unhandledError msg) := by
  refine ⟨?_, ?_, ?_, ?_⟩
  · intro s1 m1 s2 m2 h1 hn1 h2 hn2
    simp [call_psi, h1, h2, hn1, hn2]
  · intro m h1
    simp [call_psi, h1]
  · intro s1 m1 m2 h1 hn1 h2
    simp [call_psi, h1, h2, hn1]
  · intro msg h1
    simp [call_psi, h1]

/-- C5 witness: both strategies replying with non-200 statuses produce the
aggregated 400 error. -/
theorem call_psi_behaviour_witness :
    call_psi psiBothNon200 = .httpError400 "PSI failed on mobile and desktop" :=
  (call_psi_behaviour psiBothNon200).1 403 psiMetricsFixture 500 psiMetricsFixture
    rfl (by decide) rfl (by decide)

/-- C6: for every parser, fetch oracle, URL and keyword, when the
server-side fetch succeeds with body `html`, `/analyze-seo-url` returns
exactly the report `/analyze-seo` produces for `{html, url,
primary_keyword}`. -/
theorem analyze_seo_url_delegates (parse : String → NodeF)
    (fetch : String → Option String) (url kw html : String)
    (hf : fetch url = some html) :
    analyze_seo_url parse fetch url kw = some (analyze_seo parse html url kw) := by
  simp [analyze_seo_url, hf]

/-- C6 witness: the delegation equation on concrete fixtures. -/
theorem analyze_seo_url_delegates_witness :
    analyze_seo_url parseFixture fetchFixture "http://example.com/" "shoes"
      = some (analyze_seo parseFixture "<html></html>" "http://example.com/" "shoes") :=
  analyze_seo_url_delegates parseFixture fetchFixture "http://example.com/" "shoes"
    "<html></html>" rfl

/-- C7: for every document, URL and keyword the extracted features satisfy
the invariants: the number of images missing alt text is at most the total
number of images, the h1 count equals the length of the h1 text list, and
all counts are non-negative (they are natural numbers by construction). -/
theorem features_invariants (doc : NodeF) (url kw : String) :
    (buildReport doc url kw).image_missing_alt ≤ (buildReport doc url kw).image_total
    ∧ (buildReport doc url kw).h1_count = (h1Texts doc).length
    ∧ 0 ≤ (buildReport doc url kw).internal_links
    ∧ 0 ≤ (buildReport doc url kw).external_links
    ∧ 0 ≤ (buildReport doc url kw).image_total
    ∧ 0 ≤ (buildReport doc url kw).word_count := by
  refine ⟨?_, rfl, Nat.zero_le _, Nat.zero_le _, Nat.zero_le _, Nat.zero_le _⟩
  show (imgElems doc).countP (fun e => !attrTruthy (getAttr e.attrs "alt"))
      ≤ (imgElems doc).length
  exact List.countP_le_length _

/-- C8: the domain normalizer sends `http://www.example.com/page` and
`https://example.com/other` to the same root domain `example.com`, and any
URL without a resolvable host — the empty URL, or a relative URL such as
`/contact` — to the empty string. -/
theorem short_domain_normalizer :
    short_domain "http://www.example.com/page" = "example.com"
    ∧ short_domain "https://example.com/other" = "example.com"
    ∧ short_domain "" = ""
    ∧ short_domain "/contact" = ""
    ∧ ∀ u : String, urlHostname u = "" → short_domain u = "" := by
  refine ⟨by decide, by decide, by decide, by decide, ?_⟩
  intro u h
  simp only [short_domain, h]
  decide

/-- C8 witness: the hostname of the relative URL `/contact` is empty and
its root domain is the empty string. -/
theorem short_domain_normalizer_witness :
    urlHostname "/contact" = "" ∧ short_domain "/contact" = "" :=
  ⟨by decide, short_domain_normalizer.2.2.2.2 "/contact" (by decide)⟩

/-- C9: the keyword normalizer is total, its output only contains lowercase
ASCII letters and digits, and `normalize("Red-Shoes!") ==
normalize("REDSHOES")`. -/
theorem normalize_alnum_only :
    (∀ s : String, ((normalize s).data.all isLowerAlnum) = true)
    ∧ normalize "Red-Shoes!" = normalize "REDSHOES" := by
  constructor
  · intro s
    apply List.all_eq_true.mpr
    intro c hc
    have hmem : c ∈ (s.data.map Char.toLower).filter isLowerAlnum := hc
    exact (List.mem_filter.mp hmem).2
  · decide

/-- C10: internal and external link classification is disjoint — no anchor
is counted in both — so the two counts sum to at most the number of anchor
elements carrying an href attribute. -/
theorem internal_external_disjoint (doc : NodeF) (url kw : String) :
    (buildReport doc url kw).internal_links + (buildReport doc url kw).external_links
        ≤ (anchorElems doc).length
    ∧ ((anchorElems doc).all (fun e => !(isInternal url e && isExternal url e))) = true := by
  constructor
  · show (anchorElems doc).countP (isInternal url)
          + (anchorElems doc).countP (isExternal url) ≤ (anchorElems doc).length
    exact countP_pair_le_length _ _ _ (isExternal_eq_false_of_isInternal url)
  · apply List.all_eq_true.mpr
    intro e _
    cases hi : isInternal url e
    · rfl
    · rw [isExternal_eq_false_of_isInternal url e hi]
      rfl

end SeoAuditor
